import Mathlib

/-!
Verification development for the batch image-transform pipeline of a
browser photo gallery/editor.  The definitions below are a shallow
embedding of the TypeScript source:

* `resolveDims`, `canvasDims` embed the dimension computation of
  `processImage` in `src/components/batch/BatchProcessor.tsx` (lines
  78-100), including the coercion performed by assigning a JavaScript
  number to `canvas.width` / `canvas.height` (WebIDL `unsigned long`:
  truncation toward zero, then reduction modulo 2^32).
* `batchFilterOps` embeds the `ctx.filter` string built at lines 102-108.
* `applyFiltersList` embeds `applyFilters` of the interactive editor
  (fabric.js filter construction).
* `processImage`, `stepItem`, `runBatch` embed the per-item transform and
  the loop of `startBatchProcessing` (lines 130-170), with the browser
  environment (image load outcome, 2d-context availability, encoder
  success) passed in as an explicit oracle.

Arithmetic the source performs on JavaScript numbers is modelled exactly
over `ℚ`; the integer coercions the platform applies are modelled
explicitly where the source relies on them.
-/

/-- Embedding of the `resize` part of `ProcessingOptions`
(`BatchProcessor.tsx` lines 22-37).  The source field
`maintainAspectRatio` is named `maintainAspect` here. -/
structure ResizeOpts where
  enabled : Bool
  width : ℤ
  height : ℤ
  maintainAspect : Bool
deriving DecidableEq

/-- Embedding of the `filters` part of `ProcessingOptions`. -/
structure FilterOpts where
  brightness : ℚ
  contrast : ℚ
  saturation : ℚ
  blur : ℚ
deriving DecidableEq

/-- Output format of `ProcessingOptions.format`. -/
inductive ImgFormat
  | png
  | jpeg
  | webp
deriving DecidableEq

/-- File extension string used for `image/<format>` mime types and output
file names. -/
def formatName : ImgFormat → String
  | ImgFormat.png => "png"
  | ImgFormat.jpeg => "jpeg"
  | ImgFormat.webp => "webp"

/-- Embedding of `ProcessingOptions` of `BatchProcessor.tsx`. -/
structure ProcessingOptions where
  resize : ResizeOpts
  filters : FilterOpts
  format : ImgFormat
  quality : ℤ
deriving DecidableEq

/-- Dimension computation of `processImage` (lines 78-97), before the
canvas assignment: starting from the natural dimensions, if resizing is
enabled and the aspect ratio is kept, a source with `width > height` gets
`width = resize.width` and `height = width / aspectRatio`, otherwise
`height = resize.height` and `width = height * aspectRatio`; with the
aspect ratio not kept both target fields are used directly.  The
JavaScript number arithmetic is modelled exactly over `ℚ`. -/
def resolveDims (natW natH : ℤ) (r : ResizeOpts) : ℚ × ℚ :=
  if r.enabled then
    if r.maintainAspect then
      let ar : ℚ := (natW : ℚ) / (natH : ℚ)
      if natW > natH then
        ((r.width : ℚ), (r.width : ℚ) / ar)
      else
        ((r.height : ℚ) * ar, (r.height : ℚ))
    else
      ((r.width : ℚ), (r.height : ℚ))
  else
    ((natW : ℚ), (natH : ℚ))

/-- Coercion applied by assigning a JavaScript number to `canvas.width` or
`canvas.height` (WebIDL `unsigned long` conversion): truncation toward
zero, then reduction modulo 2^32. -/
def canvasDim (q : ℚ) : ℤ :=
  (if 0 ≤ q then q.floor else q.ceil) % 4294967296

/-- Output pixel dimensions of `processImage`: the resolved dimensions as
stored into `canvas.width` and `canvas.height` (lines 99-100). -/
def canvasDims (natW natH : ℤ) (r : ResizeOpts) : ℤ × ℤ :=
  (canvasDim (resolveDims natW natH r).1, canvasDim (resolveDims natW natH r).2)

/-- One entry of the `ctx.filter` string built by `processImage`
(lines 102-108). -/
inductive ToneOp
  | brightness (pct : ℚ)
  | contrast (pct : ℚ)
  | saturate (pct : ℚ)
  | blur (px : ℚ)
deriving DecidableEq

/-- Filter pipeline of the batch path: `processImage` always sets
`ctx.filter` to the four entries
`brightness(100+b %) contrast(100+c %) saturate(100+s %) blur(bl px)`,
in this order, with no entry ever omitted (lines 103-108). -/
def batchFilterOps (f : FilterOpts) : List ToneOp :=
  [ToneOp.brightness (100 + f.brightness),
   ToneOp.contrast (100 + f.contrast),
   ToneOp.saturate (100 + f.saturation),
   ToneOp.blur f.blur]

/-- Filter values of the interactive editor (`activeFilters`). -/
structure EditorFilters where
  brightness : ℚ
  contrast : ℚ
  saturation : ℚ
  blur : ℚ
  sepia : ℚ
  grayscale : ℚ
deriving DecidableEq

/-- One fabric.js filter object constructed by the editor. -/
inductive FabricFilter
  | brightness (v : ℚ)
  | contrast (v : ℚ)
  | saturation (v : ℚ)
  | blur (v : ℚ)
  | sepia
  | grayscale
deriving DecidableEq

/-- Filter list built by `applyFilters` of the interactive editor: each
filter is pushed only when its value is nonzero (blur, sepia and
grayscale only when positive), in the fixed order brightness, contrast,
saturation, blur, sepia, grayscale; the blur parameter is divided by 10
before being passed to the fabric `Blur` filter. -/
def applyFiltersList (f : EditorFilters) : List FabricFilter :=
  (if f.brightness ≠ 0 then [FabricFilter.brightness f.brightness] else []) ++
  (if f.contrast ≠ 0 then [FabricFilter.contrast f.contrast] else []) ++
  (if f.saturation ≠ 0 then [FabricFilter.saturation f.saturation] else []) ++
  (if f.blur > 0 then [FabricFilter.blur (f.blur / 10)] else []) ++
  (if f.sepia > 0 then [FabricFilter.sepia] else []) ++
  (if f.grayscale > 0 then [FabricFilter.grayscale] else [])

/-- Rejection message of `processImage` when `canvas.getContext` returns
null. -/
def msgCtx : String := "Could not get canvas context"

/-- Rejection message of `processImage` when the image fails to load. -/
def msgLoad : String := "Failed to load image"

/-- Rejection message of `processImage` when `canvas.toBlob` yields no
blob. -/
def msgEncode : String := "Failed to process image"

/-- Prefix of the per-item error toast of `startBatchProcessing`. -/
def toastPre : String := "Failed to process "

/-- Embedding of `Photo` as used by the batch processor: only `title` and
`file_url` are read. -/
structure Photo where
  title : String
  fileUrl : String
deriving DecidableEq

/-- Outcome of asking the browser to load one image: either the `onerror`
handler fires, or `onload` fires with the natural dimensions, and the
later `canvas.toBlob` call either produces a blob or yields null. -/
inductive LoadOutcome
  | failed
  | loaded (natW natH : ℤ) (encodeOk : Bool)
deriving DecidableEq

/-- Browser environment for one `processImage` call: whether
`canvas.getContext` succeeds and what the image element does. -/
structure ItemEnv where
  ctxOk : Bool
  load : LoadOutcome
deriving DecidableEq

/-- Encoded output of one `processImage` call: the canvas dimensions, the
mime type, the quality argument passed to `toBlob`, and the filter
pipeline that was set before drawing. -/
structure Blob where
  width : ℤ
  height : ℤ
  mime : String
  quality : ℚ
  ops : List ToneOp
deriving DecidableEq

/-- Embedding of `processImage` (`BatchProcessor.tsx` lines 66-128): with
no 2d context the promise rejects; on image load error it rejects; on
load it sizes the canvas via `canvasDims`, sets the filter string, draws
and encodes, rejecting when `toBlob` yields no blob. -/
def processImage (opts : ProcessingOptions) (e : ItemEnv) : Except String Blob :=
  if e.ctxOk then
    match e.load with
    | LoadOutcome.failed => Except.error msgLoad
    | LoadOutcome.loaded natW natH encodeOk =>
        let dims := canvasDims natW natH opts.resize
        if encodeOk then
          Except.ok
            { width := dims.1
              height := dims.2
              mime := "image/" ++ formatName opts.format
              quality := (opts.quality : ℚ) / 100
              ops := batchFilterOps opts.filters }
        else Except.error msgEncode
  else Except.error msgCtx

/-- Output file name of one photo: `<title>.<format>`
(`BatchProcessor.tsx` line 146). -/
def outName (opts : ProcessingOptions) (p : Photo) : String :=
  p.title ++ "." ++ formatName opts.format

/-- The recorded outcome of one loop iteration of
`startBatchProcessing`: the `try` branch pushes a named blob, the `catch`
branch records the failure (console error and toast) and continues. -/
inductive ItemOutcome
  | success (name : String) (blob : Blob)
  | failure (title : String) (msg : String)
deriving DecidableEq

/-- Outcome of one iteration as a function of the photo. -/
def itemOutcome (opts : ProcessingOptions) (env : Photo → ItemEnv) (p : Photo) :
    ItemOutcome :=
  match processImage opts (env p) with
  | Except.ok blob => ItemOutcome.success (outName opts p) blob
  | Except.error msg => ItemOutcome.failure p.title msg

/-- Whether the transform of one photo succeeds. -/
def itemOk (opts : ProcessingOptions) (env : Photo → ItemEnv) (p : Photo) : Bool :=
  match processImage opts (env p) with
  | Except.ok _ => true
  | Except.error _ => false

/-- Embedding of `JSZip.file(name, blob)`: adding an entry under an
existing name replaces that entry (last write wins, keeping the original
position), otherwise the entry is appended. -/
def zipFile (entries : List (String × Blob)) (name : String) (blob : Blob) :
    List (String × Blob) :=
  if name ∈ entries.map Prod.fst then
    entries.map (fun e => if e.1 = name then (name, blob) else e)
  else entries ++ [(name, blob)]

/-- Accumulator of the loop of `startBatchProcessing`: the result trace
(one entry per attempted photo), the `processedPhotos` array, the zip
entries, and the error toasts emitted so far. -/
structure LoopState where
  results : List ItemOutcome
  processedPhotos : List (String × Blob)
  zipEntries : List (String × Blob)
  errorToasts : List String
deriving DecidableEq

/-- Initial loop accumulator. -/
def initState : LoopState := ⟨[], [], [], []⟩

/-- One iteration of the loop of `startBatchProcessing` (lines 140-155):
`try` processes the image and pushes `{name, blob}` onto
`processedPhotos` and into the zip; `catch` records the failure toast and
continues. -/
def stepItem (opts : ProcessingOptions) (env : Photo → ItemEnv)
    (st : LoopState) (p : Photo) : LoopState :=
  match processImage opts (env p) with
  | Except.ok blob =>
      { results := st.results ++ [ItemOutcome.success (outName opts p) blob]
        processedPhotos := st.processedPhotos ++ [(outName opts p, blob)]
        zipEntries := zipFile st.zipEntries (outName opts p) blob
        errorToasts := st.errorToasts }
  | Except.error msg =>
      { results := st.results ++ [ItemOutcome.failure p.title msg]
        processedPhotos := st.processedPhotos
        zipEntries := st.zipEntries
        errorToasts := st.errorToasts ++ [toastPre ++ p.title] }

/-- Observable result of one `startBatchProcessing` run. -/
structure RunResult where
  results : List ItemOutcome
  processedPhotos : List (String × Blob)
  zipEntries : List (String × Blob)
  errorToasts : List String
  progressEvents : List ℚ
  archive : Option (List (String × Blob))
deriving DecidableEq

/-- Embedding of `startBatchProcessing` (`BatchProcessor.tsx` lines
130-170): an empty selection returns immediately; otherwise the photos
are processed strictly in order by `stepItem`, progress is reported after
every item as `(i+1)/N*100`, and the zip blob is generated and delivered
(`saveAs`) only when at least one photo was processed successfully. -/
def runBatch (opts : ProcessingOptions) (photos : List Photo)
    (env : Photo → ItemEnv) : RunResult :=
  if photos.isEmpty then
    { results := [], processedPhotos := [], zipEntries := []
      errorToasts := [], progressEvents := [], archive := none }
  else
    let st := photos.foldl (stepItem opts env) initState
    { results := st.results
      processedPhotos := st.processedPhotos
      zipEntries := st.zipEntries
      errorToasts := st.errorToasts
      progressEvents :=
        (List.range photos.length).map
          (fun i => ((i : ℚ) + 1) / (photos.length : ℚ) * 100)
      archive :=
        if 0 < st.processedPhotos.length then some st.zipEntries else none }

/-- Modelled from the spec: the TransformSpec range constraints (positive
resize targets, brightness, contrast and saturation in [-100,100], blur
in [0,20], quality in [1,100]).  The source contains no validation code
at all, so this predicate only serves to state claims about out-of-range
specs. -/
def specInRange (o : ProcessingOptions) : Bool :=
  decide (0 < o.resize.width ∧ 0 < o.resize.height
    ∧ -100 ≤ o.filters.brightness ∧ o.filters.brightness ≤ 100
    ∧ -100 ≤ o.filters.contrast ∧ o.filters.contrast ≤ 100
    ∧ -100 ≤ o.filters.saturation ∧ o.filters.saturation ≤ 100
    ∧ 0 ≤ o.filters.blur ∧ o.filters.blur ≤ 20
    ∧ 1 ≤ o.quality ∧ o.quality ≤ 100)

/-- The `disabled` prop of the dialog Cancel button
(`BatchProcessor.tsx` line 413): it is disabled exactly while a run is in
progress, so no cancellation can be signalled during a run. -/
def cancelButtonDisabled (processing : Bool) : Bool := processing

/-- An RGB pixel with rational channel values. -/
structure Pixel where
  r : ℚ
  g : ℚ
  b : ℚ
deriving DecidableEq

/-- A raster image: a pixel for every integer coordinate. -/
def Image : Type := ℤ → ℤ → Pixel

/-- Pixel semantics of the CSS filter function `brightness(p%)` as applied
by `ctx.filter` (CSS Filter Effects: every channel is multiplied by
`p/100`). -/
def brightnessPx (p : ℚ) (px : Pixel) : Pixel :=
  { r := p / 100 * px.r, g := p / 100 * px.g, b := p / 100 * px.b }

/-- Pixel semantics of the CSS filter function `contrast(p%)` (CSS Filter
Effects: linear interpolation about the midpoint, slope `p/100` and
intercept `(1 - p/100)/2`). -/
def contrastPx (p : ℚ) (px : Pixel) : Pixel :=
  { r := p / 100 * px.r + (1 - p / 100) / 2
    g := p / 100 * px.g + (1 - p / 100) / 2
    b := p / 100 * px.b + (1 - p / 100) / 2 }

/-- Pixel semantics of the CSS filter function `saturate(p%)` (CSS Filter
Effects saturation matrix with luminance weights 0.213, 0.715, 0.072). -/
def saturatePx (p : ℚ) (px : Pixel) : Pixel :=
  let s := p / 100
  { r := (213 / 1000 + 787 / 1000 * s) * px.r
        + (715 / 1000 - 715 / 1000 * s) * px.g
        + (72 / 1000 - 72 / 1000 * s) * px.b
    g := (213 / 1000 - 213 / 1000 * s) * px.r
        + (715 / 1000 + 285 / 1000 * s) * px.g
        + (72 / 1000 - 72 / 1000 * s) * px.b
    b := (213 / 1000 - 213 / 1000 * s) * px.r
        + (715 / 1000 - 715 / 1000 * s) * px.g
        + (72 / 1000 + 928 / 1000 * s) * px.b }

/-- Image semantics of the CSS filter function `blur(r px)`: per the CSS
Filter Effects specification a radius of 0 leaves the input unchanged; a
positive radius mixes neighbouring pixels (the exact Gaussian kernel is
irrelevant to the claims below, which only use that `blur(0px)` is the
identity, so a positive radius is modelled as a fixed three-tap
horizontal average). -/
def blurImage (radius : ℚ) (im : Image) : Image :=
  if radius = 0 then im
  else fun x y =>
    { r := ((im (x - 1) y).r + (im x y).r + (im (x + 1) y).r) / 3
      g := ((im (x - 1) y).g + (im x y).g + (im (x + 1) y).g) / 3
      b := ((im (x - 1) y).b + (im x y).b + (im (x + 1) y).b) / 3 }

/-- Image semantics of one entry of the `ctx.filter` string. -/
def applyToneOp : ToneOp → Image → Image
  | ToneOp.brightness p, im => fun x y => brightnessPx p (im x y)
  | ToneOp.contrast p, im => fun x y => contrastPx p (im x y)
  | ToneOp.saturate p, im => fun x y => saturatePx p (im x y)
  | ToneOp.blur rad, im => blurImage rad im

/-- Image semantics of a whole filter pipeline, applied left to right as
the canvas applies the filter list in `ctx.filter`. -/
def applyPipeline (ops : List ToneOp) (im : Image) : Image :=
  ops.foldl (fun acc op => applyToneOp op acc) im

/-- The `processedPhotos` entry contributed by one photo: a singleton for
a success, nothing for a failure. -/
def successEntry (opts : ProcessingOptions) (env : Photo → ItemEnv) (p : Photo) :
    List (String × Blob) :=
  match processImage opts (env p) with
  | Except.ok blob => [(outName opts p, blob)]
  | Except.error _ => []

/-- Names of the success entries contributed by a list of photos. -/
def successNames (opts : ProcessingOptions) (env : Photo → ItemEnv)
    (photos : List Photo) : List String :=
  (photos.filter (itemOk opts env)).map (outName opts)

/-- Concrete photo fixture. -/
def photoA : Photo := { title := "A", fileUrl := "uA" }

/-- Concrete photo fixture. -/
def photoB : Photo := { title := "B", fileUrl := "uB" }

/-- Concrete photo fixture. -/
def photoC : Photo := { title := "C", fileUrl := "uC" }

/-- Concrete photo fixture. -/
def photoD : Photo := { title := "D", fileUrl := "uD" }

/-- Concrete photo fixture. -/
def photoE : Photo := { title := "E", fileUrl := "uE" }

/-- Two photos sharing one title, to exercise zip name collisions. -/
def photoX1 : Photo := { title := "x", fileUrl := "u1" }

/-- Two photos sharing one title, to exercise zip name collisions. -/
def photoX2 : Photo := { title := "x", fileUrl := "u2" }

/-- The default options of the batch dialog (`defaultOptions`,
`BatchProcessor.tsx` lines 39-54). -/
def optsDefault : ProcessingOptions :=
  { resize := { enabled := false, width := 1920, height := 1080, maintainAspect := true }
    filters := { brightness := 0, contrast := 0, saturation := 0, blur := 0 }
    format := ImgFormat.jpeg
    quality := 90 }

/-- An out-of-range spec: brightness 500 lies outside [-100,100]. -/
def optsBad : ProcessingOptions :=
  { resize := { enabled := false, width := 1920, height := 1080, maintainAspect := true }
    filters := { brightness := 500, contrast := 0, saturation := 0, blur := 0 }
    format := ImgFormat.jpeg
    quality := 90 }

/-- Environment in which every image loads as a 4 by 4 image and encodes
fine. -/
def envOk : Photo → ItemEnv :=
  fun _ => { ctxOk := true, load := LoadOutcome.loaded 4 4 true }

/-- Environment in which every image fails to load. -/
def envFail : Photo → ItemEnv :=
  fun _ => { ctxOk := true, load := LoadOutcome.failed }

/-- Environment in which exactly the photo titled B fails to load. -/
def envFailB : Photo → ItemEnv :=
  fun p =>
    if p.title = "B" then { ctxOk := true, load := LoadOutcome.failed }
    else { ctxOk := true, load := LoadOutcome.loaded 4 4 true }

/-- The Batteries floor on `ℚ` agrees with the Mathlib floor. -/
theorem ratFloor_eq_intFloor (q : ℚ) : q.floor = ⌊q⌋ := by
  rw [Rat.floor_def', Rat.floor_def]

/-- Evaluation rule for `canvasDim` at nonnegative values below 2^32. -/
theorem canvasDim_eval (q : ℚ) (z : ℤ) (h0 : 0 ≤ q) (hz : 0 ≤ z)
    (hz32 : z < 4294967296) (hle : (z : ℚ) ≤ q) (hlt : q < z + 1) :
    canvasDim q = z := by
  unfold canvasDim
  rw [if_pos h0, ratFloor_eq_intFloor]
  have hfl : ⌊q⌋ = z := Int.floor_eq_iff.mpr ⟨hle, by exact_mod_cast hlt⟩
  rw [hfl, Int.emod_eq_of_lt hz hz32]

/-- Every step of the loop appends exactly one entry to the result
trace. -/
theorem stepItem_results (opts : ProcessingOptions) (env : Photo → ItemEnv)
    (st : LoopState) (p : Photo) :
    (stepItem opts env st p).results = st.results ++ [itemOutcome opts env p] := by
  unfold stepItem itemOutcome
  cases processImage opts (env p) <;> rfl

/-- The fold of the loop produces one result per photo, in input order. -/
theorem foldl_results (opts : ProcessingOptions) (env : Photo → ItemEnv)
    (photos : List Photo) (st : LoopState) :
    (photos.foldl (stepItem opts env) st).results
      = st.results ++ photos.map (itemOutcome opts env) := by
  induction photos generalizing st with
  | nil => simp
  | cons p ps ih =>
      simp only [List.foldl_cons, List.map_cons, ih, stepItem_results,
        List.append_assoc, List.singleton_append]

/-- The `processedPhotos` accumulator grows exactly at successful
items. -/
theorem stepItem_processed (opts : ProcessingOptions) (env : Photo → ItemEnv)
    (st : LoopState) (p : Photo) :
    (stepItem opts env st p).processedPhotos
      = st.processedPhotos ++ successEntry opts env p := by
  unfold stepItem successEntry
  cases h : processImage opts (env p) <;> simp

/-- The fold accumulates exactly the success entries, in input order. -/
theorem foldl_processed (opts : ProcessingOptions) (env : Photo → ItemEnv)
    (photos : List Photo) (st : LoopState) :
    (photos.foldl (stepItem opts env) st).processedPhotos
      = st.processedPhotos ++ photos.flatMap (successEntry opts env) := by
  induction photos generalizing st with
  | nil => simp
  | cons p ps ih =>
      simp only [List.foldl_cons, List.flatMap_cons, ih, stepItem_processed,
        List.append_assoc]

/-- Length of the success-entry contribution of one photo, as a function
of `itemOk`. -/
theorem successEntry_length (opts : ProcessingOptions) (env : Photo → ItemEnv)
    (p : Photo) :
    (successEntry opts env p).length = if itemOk opts env p then 1 else 0 := by
  unfold successEntry itemOk
  cases h : processImage opts (env p) <;> simp

/-- The number of processed photos equals the number of successful
items. -/
theorem foldl_processed_length (opts : ProcessingOptions) (env : Photo → ItemEnv)
    (photos : List Photo) :
    (photos.foldl (stepItem opts env) initState).processedPhotos.length
      = (photos.filter (itemOk opts env)).length := by
  rw [foldl_processed]
  simp only [initState, List.nil_append, List.length_flatMap]
  induction photos with
  | nil => simp
  | cons p ps ih =>
      simp only [List.map_cons, List.sum_cons, List.filter_cons,
        Function.comp_apply, successEntry_length, ih]
      cases h : itemOk opts env p <;> simp [h, Nat.add_comm, Nat.add_assoc]

/-- Every failing item appends exactly one error toast. -/
theorem stepItem_toasts (opts : ProcessingOptions) (env : Photo → ItemEnv)
    (st : LoopState) (p : Photo) :
    (stepItem opts env st p).errorToasts
      = st.errorToasts
        ++ (if itemOk opts env p then [] else [toastPre ++ p.title]) := by
  unfold stepItem itemOk
  cases h : processImage opts (env p) <;> simp

/-- The number of error toasts equals the number of failed items. -/
theorem foldl_toasts_length (opts : ProcessingOptions) (env : Photo → ItemEnv)
    (photos : List Photo) (st : LoopState) :
    (photos.foldl (stepItem opts env) st).errorToasts.length
      = st.errorToasts.length
        + (photos.filter (fun p => !itemOk opts env p)).length := by
  induction photos generalizing st with
  | nil => simp
  | cons p ps ih =>
      simp only [List.foldl_cons, List.filter_cons, ih, stepItem_toasts]
      cases h : itemOk opts env p <;> simp [h, Nat.add_comm, Nat.add_assoc]

/-- Successes and failures partition an item list. -/
theorem filter_ok_not_ok_length (photos : List Photo) (f : Photo → Bool) :
    (photos.filter f).length + (photos.filter (fun p => !f p)).length
      = photos.length := by
  induction photos with
  | nil => simp
  | cons p ps ih => cases h : f p <;> simp [List.filter_cons, h] <;> omega

/-- Adding a fresh name to the zip appends an entry. -/
theorem zipFile_fresh (entries : List (String × Blob)) (name : String)
    (blob : Blob) (h : name ∉ entries.map Prod.fst) :
    zipFile entries name blob = entries ++ [(name, blob)] := by
  unfold zipFile
  rw [if_neg h]

/-- When all success names are pairwise distinct (and distinct from the
names already in the zip), the zip ends up holding exactly one entry per
success, in input order. -/
theorem foldl_zip_names (opts : ProcessingOptions) (env : Photo → ItemEnv)
    (photos : List Photo) (st : LoopState)
    (h : (st.zipEntries.map Prod.fst ++ successNames opts env photos).Nodup) :
    (photos.foldl (stepItem opts env) st).zipEntries.map Prod.fst
      = st.zipEntries.map Prod.fst ++ successNames opts env photos := by
  induction photos generalizing st with
  | nil => simp [successNames]
  | cons p ps ih =>
      by_cases hok : itemOk opts env p = true
      · have hsn : successNames opts env (p :: ps)
            = outName opts p :: successNames opts env ps := by
          simp [successNames, List.filter_cons, hok]
        rw [hsn] at h ⊢
        obtain ⟨b, hb⟩ : ∃ b, processImage opts (env p) = Except.ok b := by
          unfold itemOk at hok
          cases hpe : processImage opts (env p) with
          | ok blob => exact ⟨blob, rfl⟩
          | error m => rw [hpe] at hok; simp at hok
        have hfresh : outName opts p ∉ st.zipEntries.map Prod.fst := by
          rw [List.nodup_append] at h
          intro hmem
          exact h.2.2 hmem (List.mem_cons_self _ _)
        have hstep : (stepItem opts env st p).zipEntries
            = st.zipEntries ++ [(outName opts p, b)] := by
          unfold stepItem
          rw [hb]
          simpa using zipFile_fresh st.zipEntries (outName opts p) b hfresh
        rw [List.foldl_cons]
        have hnames : (stepItem opts env st p).zipEntries.map Prod.fst
            = st.zipEntries.map Prod.fst ++ [outName opts p] := by
          rw [hstep]; simp
        rw [ih (stepItem opts env st p) (by
          rw [hnames, List.append_assoc, List.singleton_append]
          exact h), hnames, List.append_assoc, List.singleton_append]
      · have hok' : itemOk opts env p = false := by
          cases hbe : itemOk opts env p
          · rfl
          · exact absurd hbe hok
        have hsn : successNames opts env (p :: ps) = successNames opts env ps := by
          simp [successNames, List.filter_cons, hok']
        rw [hsn] at h ⊢
        obtain ⟨m, hm⟩ : ∃ m, processImage opts (env p) = Except.error m := by
          unfold itemOk at hok'
          cases hpe : processImage opts (env p) with
          | ok blob => rw [hpe] at hok'; simp at hok'
          | error msg => exact ⟨msg, rfl⟩
        have hstep : (stepItem opts env st p).zipEntries = st.zipEntries := by
          unfold stepItem
          rw [hm]
        rw [List.foldl_cons, ih (stepItem opts env st p) (by rw [hstep]; exact h),
          hstep]

/-- A conditional singleton is a sublist of the singleton. -/
theorem ite_singleton_sublist {α : Type} (P : Prop) [Decidable P] (x : α) :
    List.Sublist (if P then [x] else []) [x] := by
  split
  · exact List.Sublist.refl _
  · exact List.nil_sublist _

/-- C7 counterexample: for the all-zero tone spec the batch pipeline still
contains all four ops — in particular the blur op with parameter 0 and
the brightness op for brightness 0 — so a zero/no-op parameter is not
omitted from the batch pipeline. -/
theorem c7_zero_ops_not_omitted_in_batch :
    batchFilterOps ⟨0, 0, 0, 0⟩
      = [ToneOp.brightness 100, ToneOp.contrast 100,
         ToneOp.saturate 100, ToneOp.blur 0]
    ∧ ToneOp.blur 0 ∈ batchFilterOps ⟨0, 0, 0, 0⟩
    ∧ (batchFilterOps ⟨0, 0, 0, 0⟩).length = 4 := by
  refine ⟨by norm_num [batchFilterOps], ?_, by norm_num [batchFilterOps]⟩
  norm_num [batchFilterOps]

/-- C7 (amended): the editor compositor emits filters in the fixed order
brightness, contrast, saturation, blur (then sepia, grayscale) and omits
every zero/no-op entry, while the batch compositor always emits all four
ops in that fixed order, using neutral parameters in place of omitted
ops. -/
theorem c7_filter_order (f : FilterOpts) (ef : EditorFilters) :
    batchFilterOps f
      = [ToneOp.brightness (100 + f.brightness),
         ToneOp.contrast (100 + f.contrast),
         ToneOp.saturate (100 + f.saturation),
         ToneOp.blur f.blur]
    ∧ List.Sublist (applyFiltersList ef)
        [FabricFilter.brightness ef.brightness,
            FabricFilter.contrast ef.contrast,
            FabricFilter.saturation ef.saturation,
            FabricFilter.blur (ef.blur / 10),
            FabricFilter.sepia, FabricFilter.grayscale]
    ∧ (ef.brightness = 0 → ∀ v, FabricFilter.brightness v ∉ applyFiltersList ef)
    ∧ (ef.contrast = 0 → ∀ v, FabricFilter.contrast v ∉ applyFiltersList ef)
    ∧ (ef.saturation = 0 → ∀ v, FabricFilter.saturation v ∉ applyFiltersList ef)
    ∧ (ef.blur ≤ 0 → ∀ v, FabricFilter.blur v ∉ applyFiltersList ef) := by
  refine ⟨rfl, ?_, ?_, ?_, ?_, ?_⟩
  · show List.Sublist (applyFiltersList ef)
      ((((([FabricFilter.brightness ef.brightness]
        ++ [FabricFilter.contrast ef.contrast])
        ++ [FabricFilter.saturation ef.saturation])
        ++ [FabricFilter.blur (ef.blur / 10)])
        ++ [FabricFilter.sepia]) ++ [FabricFilter.grayscale])
    unfold applyFiltersList
    exact List.Sublist.append (List.Sublist.append (List.Sublist.append
      (List.Sublist.append (List.Sublist.append (ite_singleton_sublist _ _)
      (ite_singleton_sublist _ _)) (ite_singleton_sublist _ _))
      (ite_singleton_sublist _ _)) (ite_singleton_sublist _ _))
      (ite_singleton_sublist _ _)
  · intro h0 v hmem
    simp [applyFiltersList, h0] at hmem
  · intro h0 v hmem
    simp [applyFiltersList, h0] at hmem
  · intro h0 v hmem
    simp [applyFiltersList, h0] at hmem
  · intro h0 v hmem
    have hng : ¬ (ef.blur > 0) := not_lt.mpr h0
    simp [applyFiltersList, hng] at hmem

/-- Witness for `c7_filter_order` at a concrete spec: with brightness 0,
saturation 0 and blur 0 the editor omits those filters. -/
theorem c7_filter_order_witness :
    ((0 : ℚ) = 0 ∧ (0 : ℚ) ≤ 0)
    ∧ FabricFilter.brightness 7 ∉ applyFiltersList ⟨0, 5, 0, 0, 0, 0⟩
    ∧ FabricFilter.blur 7 ∉ applyFiltersList ⟨0, 5, 0, 0, 0, 0⟩ :=
  ⟨⟨rfl, le_refl 0⟩,
   (c7_filter_order ⟨1, 2, 3, 4⟩ ⟨0, 5, 0, 0, 0, 0⟩).2.2.1 rfl 7,
   (c7_filter_order ⟨1, 2, 3, 4⟩ ⟨0, 5, 0, 0, 0, 0⟩).2.2.2.2.2 (le_refl 0) 7⟩

/-- C10: for the same positive blur value the batch path emits the op
with the raw pixel radius (divisor 1) while the editor divides the value
by 10 before handing it to the fabric Blur filter. -/
theorem c10_blur_divisor (f : FilterOpts) (ef : EditorFilters) (b : ℚ)
    (hb : 0 < b) (hf : f.blur = b) (hef : ef.blur = b) :
    ToneOp.blur b ∈ batchFilterOps f
    ∧ FabricFilter.blur (b / 10) ∈ applyFiltersList ef := by
  constructor
  · simp [batchFilterOps, hf]
  · simp [applyFiltersList, hef, hb]

/-- Witness for `c10_blur_divisor` at blur value 5. -/
theorem c10_blur_divisor_witness :
    (0 : ℚ) < 5
    ∧ ToneOp.blur 5 ∈ batchFilterOps ⟨0, 0, 0, 5⟩
    ∧ FabricFilter.blur (5 / 10) ∈ applyFiltersList ⟨0, 0, 0, 5, 0, 0⟩ :=
  ⟨by norm_num,
   c10_blur_divisor ⟨0, 0, 0, 5⟩ ⟨0, 0, 0, 5, 0, 0⟩ 5 (by norm_num) rfl rfl⟩

/-- C8: applying the batch tone pipeline of the all-neutral spec
(brightness = contrast = saturation = 0, blur = 0) to any drawn image is
pixel-identical to applying no filter at all; moreover the editor builds
no filter object at all for the all-neutral spec. -/
theorem c8_neutral_tone_identity (im : Image) :
    applyPipeline (batchFilterOps ⟨0, 0, 0, 0⟩) im = im
    ∧ applyPipeline [] im = im
    ∧ applyFiltersList ⟨0, 0, 0, 0, 0, 0⟩ = [] := by
  refine ⟨?_, rfl, by norm_num [applyFiltersList]⟩
  funext x y
  simp only [applyPipeline, batchFilterOps, List.foldl_cons, List.foldl_nil,
    applyToneOp, blurImage, if_pos]
  cases hpx : im x y with
  | mk r g b =>
      simp only [brightnessPx, contrastPx, saturatePx, hpx, Pixel.mk.injEq]
      norm_num

/-- The result trace of a run lists the outcome of every photo, in input
order. -/
theorem runBatch_results (opts : ProcessingOptions) (photos : List Photo)
    (env : Photo → ItemEnv) :
    (runBatch opts photos env).results = photos.map (itemOutcome opts env) := by
  cases photos with
  | nil => simp [runBatch]
  | cons p ps =>
      simp only [runBatch, List.isEmpty_cons, Bool.false_eq_true, if_false,
        foldl_results]
      simp [initState]

/-- The number of processed photos of a run equals the number of
successful items. -/
theorem runBatch_processed_length (opts : ProcessingOptions)
    (photos : List Photo) (env : Photo → ItemEnv) :
    (runBatch opts photos env).processedPhotos.length
      = (photos.filter (itemOk opts env)).length := by
  cases photos with
  | nil => simp [runBatch]
  | cons p ps =>
      simp only [runBatch, List.isEmpty_cons, Bool.false_eq_true, if_false]
      exact foldl_processed_length opts env (p :: ps)

/-- The number of error toasts of a run equals the number of failed
items. -/
theorem runBatch_toasts_length (opts : ProcessingOptions)
    (photos : List Photo) (env : Photo → ItemEnv) :
    (runBatch opts photos env).errorToasts.length
      = (photos.filter (fun p => !itemOk opts env p)).length := by
  cases photos with
  | nil => simp [runBatch]
  | cons p ps =>
      simp only [runBatch, List.isEmpty_cons, Bool.false_eq_true, if_false]
      rw [foldl_toasts_length]
      simp [initState]

/-- With pairwise distinct success names, the zip names of a run are
exactly the success names, in order. -/
theorem runBatch_zip_names (opts : ProcessingOptions) (photos : List Photo)
    (env : Photo → ItemEnv) (hnd : (successNames opts env photos).Nodup) :
    (runBatch opts photos env).zipEntries.map Prod.fst
      = successNames opts env photos := by
  cases photos with
  | nil => simp [runBatch, successNames]
  | cons p ps =>
      simp only [runBatch, List.isEmpty_cons, Bool.false_eq_true, if_false]
      have h := foldl_zip_names opts env (p :: ps) initState (by
        simpa [initState] using hnd)
      simpa [initState] using h

/-- The archive of a run is generated exactly when at least one photo was
processed successfully, and then holds the zip entries. -/
theorem runBatch_archive (opts : ProcessingOptions) (photos : List Photo)
    (env : Photo → ItemEnv) :
    (runBatch opts photos env).archive
      = if 0 < (runBatch opts photos env).processedPhotos.length
        then some (runBatch opts photos env).zipEntries
        else none := by
  cases photos with
  | nil => simp [runBatch]
  | cons p ps => simp only [runBatch, List.isEmpty_cons, Bool.false_eq_true, if_false]

/-- C2: a failing per-item transform (load error, missing context, or
encode returning no blob) is recorded and the run continues: every photo
of the batch gets exactly one outcome in the result trace, in input
order, and every failing photo contributes a recorded failure. -/
theorem c2_item_failure_never_aborts (opts : ProcessingOptions)
    (photos : List Photo) (env : Photo → ItemEnv) :
    (runBatch opts photos env).results = photos.map (itemOutcome opts env)
    ∧ ∀ p m, p ∈ photos → processImage opts (env p) = Except.error m →
        ItemOutcome.failure p.title m ∈ (runBatch opts photos env).results := by
  refine ⟨runBatch_results opts photos env, ?_⟩
  intro p m hp herr
  rw [runBatch_results opts photos env]
  have h1 : itemOutcome opts env p = ItemOutcome.failure p.title m := by
    unfold itemOutcome
    rw [herr]
  rw [← h1]
  exact List.mem_map_of_mem _ hp

/-- Witness for `c2_item_failure_never_aborts`: in a batch A, B, C where
exactly B fails to load, the failure of B is recorded in the results. -/
theorem c2_item_failure_never_aborts_witness :
    photoB ∈ [photoA, photoB, photoC]
    ∧ processImage optsDefault (envFailB photoB) = Except.error msgLoad
    ∧ ItemOutcome.failure "B" msgLoad
        ∈ (runBatch optsDefault [photoA, photoB, photoC] envFailB).results := by
  refine ⟨by decide, rfl, ?_⟩
  exact (c2_item_failure_never_aborts optsDefault [photoA, photoB, photoC]
    envFailB).2 photoB msgLoad (by decide) rfl

/-- C3 counterexample: two photos sharing the title x both succeed
(N = 2, K = 0), yet the archive holds a single entry because
`zip.file` overwrites the colliding name, so the archive does not contain
N - K entries. -/
theorem c3_name_collision_counterexample :
    (runBatch optsDefault [photoX1, photoX2] envOk).processedPhotos.length = 2
    ∧ (runBatch optsDefault [photoX1, photoX2] envOk).errorToasts.length = 0
    ∧ (runBatch optsDefault [photoX1, photoX2] envOk).zipEntries.length = 1
    ∧ (1 : ℕ) ≠ 2 := by
  exact ⟨rfl, rfl, rfl, by decide⟩

/-- C3 (amended): for a batch of N photos of which K fail, the results
list the outcome of every photo in input order, successes plus failures
partition the batch (N - K successes, K failure toasts), and — provided
the success output names are pairwise distinct, name collisions being
collapsed last-write-wins by the zip — the archive holds exactly N - K
entries whenever at least one item succeeded. -/
theorem c3_partial_failure_aggregation (opts : ProcessingOptions)
    (photos : List Photo) (env : Photo → ItemEnv)
    (hnd : (successNames opts env photos).Nodup) :
    (runBatch opts photos env).results = photos.map (itemOutcome opts env)
    ∧ (runBatch opts photos env).processedPhotos.length
        = (photos.filter (itemOk opts env)).length
    ∧ (runBatch opts photos env).processedPhotos.length
        + (runBatch opts photos env).errorToasts.length = photos.length
    ∧ (runBatch opts photos env).zipEntries.length
        = (photos.filter (itemOk opts env)).length
    ∧ ((photos.filter (itemOk opts env)).length ≠ 0 →
        (runBatch opts photos env).archive
          = some (runBatch opts photos env).zipEntries) := by
  have hpp := runBatch_processed_length opts photos env
  have hzip : (runBatch opts photos env).zipEntries.length
      = (photos.filter (itemOk opts env)).length := by
    have h := runBatch_zip_names opts photos env hnd
    have hlen : ((runBatch opts photos env).zipEntries.map Prod.fst).length
        = (successNames opts env photos).length := by rw [h]
    rw [List.length_map] at hlen
    rw [hlen]
    unfold successNames
    rw [List.length_map]
  refine ⟨runBatch_results opts photos env, hpp, ?_, hzip, ?_⟩
  · rw [hpp, runBatch_toasts_length opts photos env]
    exact filter_ok_not_ok_length photos (itemOk opts env)
  · intro hne
    rw [runBatch_archive opts photos env, if_pos (by rw [hpp]; omega)]

/-- Witness for `c3_partial_failure_aggregation`: batch A, B, C with
exactly B failing: N = 3, K = 1, two successes, one failure toast, two
archive entries. -/
theorem c3_partial_failure_aggregation_witness :
    (successNames optsDefault envFailB [photoA, photoB, photoC]).Nodup
    ∧ ((runBatch optsDefault [photoA, photoB, photoC] envFailB).results
        = [photoA, photoB, photoC].map (itemOutcome optsDefault envFailB)
      ∧ (runBatch optsDefault [photoA, photoB, photoC] envFailB).processedPhotos.length
        = ([photoA, photoB, photoC].filter (itemOk optsDefault envFailB)).length
      ∧ (runBatch optsDefault [photoA, photoB, photoC] envFailB).processedPhotos.length
        + (runBatch optsDefault [photoA, photoB, photoC] envFailB).errorToasts.length
        = [photoA, photoB, photoC].length
      ∧ (runBatch optsDefault [photoA, photoB, photoC] envFailB).zipEntries.length
        = ([photoA, photoB, photoC].filter (itemOk optsDefault envFailB)).length
      ∧ (([photoA, photoB, photoC].filter (itemOk optsDefault envFailB)).length ≠ 0 →
          (runBatch optsDefault [photoA, photoB, photoC] envFailB).archive
            = some (runBatch optsDefault [photoA, photoB, photoC] envFailB).zipEntries)) :=
  ⟨by decide,
   c3_partial_failure_aggregation optsDefault [photoA, photoB, photoC] envFailB
     (by decide)⟩

/-- C4 counterexample: a batch whose single photo fails to load produces
zero successes, and then no archive at all is generated or delivered —
the caller receives nothing rather than an empty archive. -/
theorem c4_zero_successes_counterexample :
    (runBatch optsDefault [photoA] envFail).archive = none
    ∧ (runBatch optsDefault [photoA] envFail).processedPhotos.length = 0
    ∧ (runBatch optsDefault [photoA] envFail).errorToasts.length = 1 :=
  ⟨rfl, rfl, rfl⟩

/-- C4 (amended): zero successes yield no archive at all: the archive of
a run is absent exactly when no photo was processed successfully, and
present (holding the zip entries) exactly when at least one was. -/
theorem c4_zero_successes_no_archive (opts : ProcessingOptions)
    (photos : List Photo) (env : Photo → ItemEnv) :
    ((runBatch opts photos env).archive = none
      ↔ (runBatch opts photos env).processedPhotos = [])
    ∧ ((runBatch opts photos env).processedPhotos ≠ [] →
        (runBatch opts photos env).archive
          = some (runBatch opts photos env).zipEntries) := by
  rw [runBatch_archive opts photos env]
  constructor
  · by_cases hl : 0 < (runBatch opts photos env).processedPhotos.length
    · rw [if_pos hl]
      simp only [reduceCtorEq, false_iff]
      intro hnil
      rw [hnil] at hl
      simp at hl
    · rw [if_neg hl]
      simp only [true_iff]
      rw [← List.length_eq_zero]
      omega
  · intro hne
    rw [if_pos (by rw [List.length_pos]; exact hne)]

/-- Witness for `c4_zero_successes_no_archive`: with one succeeding photo
the success list is nonempty and the archive is delivered. -/
theorem c4_zero_successes_no_archive_witness :
    ((runBatch optsDefault [photoA] envOk).archive = none
      ↔ (runBatch optsDefault [photoA] envOk).processedPhotos = [])
    ∧ (runBatch optsDefault [photoA] envOk).processedPhotos ≠ []
    ∧ (runBatch optsDefault [photoA] envOk).archive
        = some (runBatch optsDefault [photoA] envOk).zipEntries :=
  ⟨(c4_zero_successes_no_archive optsDefault [photoA] envOk).1,
   by decide,
   (c4_zero_successes_no_archive optsDefault [photoA] envOk).2 (by decide)⟩

/-- C5 counterexample: the spec with brightness 500 is out of range, yet
the batch is not rejected: its single item is still attempted (and even
succeeds), so no fail-fast validation happens before processing. -/
theorem c5_invalid_spec_counterexample :
    specInRange optsBad = false
    ∧ (runBatch optsBad [photoA] envOk).results.length = 1
    ∧ (runBatch optsBad [photoA] envOk).processedPhotos.length = 1 := by
  refine ⟨by decide, rfl, rfl⟩

/-- C5 (amended): the implementation performs no spec validation at all:
even for an out-of-range spec every photo of the batch is attempted and
gets an outcome, instead of the batch being rejected with zero items
processed. -/
theorem c5_no_spec_validation (opts : ProcessingOptions)
    (photos : List Photo) (env : Photo → ItemEnv)
    (hbad : specInRange opts = false) :
    (runBatch opts photos env).results.length = photos.length
    ∧ (runBatch opts photos env).results
        = photos.map (itemOutcome opts env) := by
  have h := runBatch_results opts photos env
  refine ⟨?_, h⟩
  rw [h]
  exact List.length_map _ _

/-- Witness for `c5_no_spec_validation` at the brightness-500 spec. -/
theorem c5_no_spec_validation_witness :
    specInRange optsBad = false
    ∧ ((runBatch optsBad [photoA] envOk).results.length = [photoA].length
      ∧ (runBatch optsBad [photoA] envOk).results
          = [photoA].map (itemOutcome optsBad envOk)) :=
  ⟨by decide, c5_no_spec_validation optsBad [photoA] envOk (by decide)⟩

/-- C6 counterexample: a run over five photos always produces five result
entries — there is no way to obtain the two entries the claim promises
for a cancellation after item 2, and the dialog Cancel button is disabled
throughout a run, so no cancellation can even be signalled. -/
theorem c6_no_cancellation_counterexample :
    (runBatch optsDefault [photoA, photoB, photoC, photoD, photoE] envOk).results.length = 5
    ∧ (runBatch optsDefault [photoA, photoB, photoC, photoD, photoE] envOk).results.length ≠ 2
    ∧ cancelButtonDisabled true = true :=
  ⟨rfl, by decide, rfl⟩

/-- C6 (amended): the implementation has no cancellation mechanism: the
processing loop consults no cancellation flag, so every started run
attempts all N items and yields N result entries, and the dialog Cancel
button is disabled while processing, so cancellation cannot be signalled
during a run at all. -/
theorem c6_no_cancellation (opts : ProcessingOptions) (photos : List Photo)
    (env : Photo → ItemEnv) :
    (runBatch opts photos env).results.length = photos.length
    ∧ cancelButtonDisabled true = true := by
  rw [runBatch_results opts photos env]
  exact ⟨List.length_map _ _, rfl⟩

/-- For nonnegative values, the canvas coercion is the floor reduced
modulo 2^32. -/
theorem canvasDim_of_nonneg (q : ℚ) (h : 0 ≤ q) :
    canvasDim q = ⌊q⌋ % 4294967296 := by
  unfold canvasDim
  rw [if_pos h, ratFloor_eq_intFloor]

/-- The canvas coercion never yields a negative dimension. -/
theorem canvasDim_nonneg (q : ℚ) : 0 ≤ canvasDim q :=
  Int.emod_nonneg _ (by norm_num)

/-- The canvas coercion leaves small nonnegative integers unchanged. -/
theorem canvasDim_intCast (z : ℤ) (h0 : 0 ≤ z) (h32 : z < 4294967296) :
    canvasDim (z : ℚ) = z := by
  rw [canvasDim_of_nonneg _ (by exact_mod_cast h0), Int.floor_intCast,
    Int.emod_eq_of_lt h0 h32]

/-- With resizing enabled and the aspect ratio kept, the resolver picks
its branch on the strict comparison `width > height`. -/
theorem resolveDims_enabled_keep (w h tW tH : ℤ) :
    resolveDims w h ⟨true, tW, tH, true⟩
      = if w > h then ((tW : ℚ), (tW : ℚ) / ((w : ℚ) / (h : ℚ)))
        else ((tH : ℚ) * ((w : ℚ) / (h : ℚ)), (tH : ℚ)) := rfl

/-- The resolver output is componentwise nonnegative for positive source
dimensions and nonnegative targets. -/
theorem resolveDims_nonneg (natW natH : ℤ) (r : ResizeOpts)
    (hw : 0 < natW) (hh : 0 < natH) (hrw : 0 ≤ r.width) (hrh : 0 ≤ r.height) :
    0 ≤ (resolveDims natW natH r).1 ∧ 0 ≤ (resolveDims natW natH r).2 := by
  have hwq : (0 : ℚ) ≤ (natW : ℚ) := by exact_mod_cast hw.le
  have hhq : (0 : ℚ) ≤ (natH : ℚ) := by exact_mod_cast hh.le
  have hrwq : (0 : ℚ) ≤ (r.width : ℚ) := by exact_mod_cast hrw
  have hrhq : (0 : ℚ) ≤ (r.height : ℚ) := by exact_mod_cast hrh
  unfold resolveDims
  split
  · split
    · split
      · exact ⟨hrwq, div_nonneg hrwq (div_nonneg hwq hhq)⟩
      · exact ⟨mul_nonneg hrhq (div_nonneg hwq hhq), hrhq⟩
    · exact ⟨hrwq, hrhq⟩
  · exact ⟨hwq, hhq⟩

/-- C1 counterexample: a square source (100 by 100) falls into the
portrait branch — the code tests `width > height` strictly — so with
target 640 by 480 the output is 480 by 480, not the 640 by 640 the claim
predicts; and for a 3 by 2 landscape source with target width 100 the
exact height 200/3 is truncated to 66 by the canvas, not rounded to the
nearest integer 67. -/
theorem c1_square_and_rounding_counterexample :
    canvasDims 100 100 ⟨true, 640, 480, true⟩ = (480, 480)
    ∧ (480 : ℤ) ≠ 640
    ∧ canvasDims 3 2 ⟨true, 100, 480, true⟩ = (100, 66)
    ∧ (66 : ℤ) ≠ 67 := by
  refine ⟨?_, by decide, ?_, by decide⟩
  · simp only [canvasDims, resolveDims]
    norm_num
    apply canvasDim_eval <;> norm_num
  · simp only [canvasDims, resolveDims]
    norm_num
    constructor <;> apply canvasDim_eval <;> norm_num

/-- C1 (amended): with resizing enabled and the aspect ratio kept, a
strictly landscape source (`sourceW > sourceH`) locks the output width to
`resize.width` and gets height `targetWidth * h / w` truncated downward
by the canvas coercion (not rounded to nearest); a portrait or square
source locks the output height to `resize.height` and gets width
`targetHeight * w / h` truncated downward. -/
theorem c1_resize_axis_lock (w h tW tH : ℤ) (hw : 0 < w) (hh : 0 < h)
    (htW0 : 0 ≤ tW) (htH0 : 0 ≤ tH)
    (htW32 : tW < 4294967296) (htH32 : tH < 4294967296) :
    (h < w →
      canvasDims w h ⟨true, tW, tH, true⟩
        = (tW, ⌊(tW : ℚ) * (h : ℚ) / (w : ℚ)⌋))
    ∧ (w ≤ h →
      canvasDims w h ⟨true, tW, tH, true⟩
        = (⌊(tH : ℚ) * (w : ℚ) / (h : ℚ)⌋, tH)) := by
  have hwq : (0 : ℚ) < (w : ℚ) := by exact_mod_cast hw
  have hhq : (0 : ℚ) < (h : ℚ) := by exact_mod_cast hh
  have htWq : (0 : ℚ) ≤ (tW : ℚ) := by exact_mod_cast htW0
  have htHq : (0 : ℚ) ≤ (tH : ℚ) := by exact_mod_cast htH0
  constructor
  · intro hlw
    have hres : resolveDims w h ⟨true, tW, tH, true⟩
        = ((tW : ℚ), (tW : ℚ) / ((w : ℚ) / (h : ℚ))) := by
      rw [resolveDims_enabled_keep, if_pos hlw]
    have hq2 : (tW : ℚ) / ((w : ℚ) / (h : ℚ)) = (tW : ℚ) * (h : ℚ) / (w : ℚ) :=
      div_div_eq_mul_div _ _ _
    have hq2nn : 0 ≤ (tW : ℚ) * (h : ℚ) / (w : ℚ) :=
      div_nonneg (mul_nonneg htWq hhq.le) hwq.le
    have hle : (tW : ℚ) * (h : ℚ) / (w : ℚ) ≤ (tW : ℚ) := by
      rw [mul_div_assoc]
      calc (tW : ℚ) * ((h : ℚ) / (w : ℚ)) ≤ (tW : ℚ) * 1 := by
            refine mul_le_mul_of_nonneg_left ?_ htWq
            rw [div_le_one hwq]
            exact_mod_cast hlw.le
        _ = (tW : ℚ) := mul_one _
    have hfl0 : 0 ≤ ⌊(tW : ℚ) * (h : ℚ) / (w : ℚ)⌋ := Int.floor_nonneg.mpr hq2nn
    have hfl32 : ⌊(tW : ℚ) * (h : ℚ) / (w : ℚ)⌋ < 4294967296 := by
      have h1 : ⌊(tW : ℚ) * (h : ℚ) / (w : ℚ)⌋ ≤ ⌊(tW : ℚ)⌋ :=
        Int.floor_le_floor hle
      rw [Int.floor_intCast] at h1
      omega
    unfold canvasDims
    rw [hres]
    dsimp only
    rw [hq2, canvasDim_intCast tW htW0 htW32, canvasDim_of_nonneg _ hq2nn,
      Int.emod_eq_of_lt hfl0 hfl32]
  · intro hwh
    have hres : resolveDims w h ⟨true, tW, tH, true⟩
        = ((tH : ℚ) * ((w : ℚ) / (h : ℚ)), (tH : ℚ)) := by
      rw [resolveDims_enabled_keep, if_neg (not_lt.mpr hwh)]
    have hq1 : (tH : ℚ) * ((w : ℚ) / (h : ℚ)) = (tH : ℚ) * (w : ℚ) / (h : ℚ) :=
      (mul_div_assoc _ _ _).symm
    have hq1nn : 0 ≤ (tH : ℚ) * (w : ℚ) / (h : ℚ) :=
      div_nonneg (mul_nonneg htHq hwq.le) hhq.le
    have hle : (tH : ℚ) * (w : ℚ) / (h : ℚ) ≤ (tH : ℚ) := by
      rw [mul_div_assoc]
      calc (tH : ℚ) * ((w : ℚ) / (h : ℚ)) ≤ (tH : ℚ) * 1 := by
            refine mul_le_mul_of_nonneg_left ?_ htHq
            rw [div_le_one hhq]
            exact_mod_cast hwh
        _ = (tH : ℚ) := mul_one _
    have hfl0 : 0 ≤ ⌊(tH : ℚ) * (w : ℚ) / (h : ℚ)⌋ := Int.floor_nonneg.mpr hq1nn
    have hfl32 : ⌊(tH : ℚ) * (w : ℚ) / (h : ℚ)⌋ < 4294967296 := by
      have h1 : ⌊(tH : ℚ) * (w : ℚ) / (h : ℚ)⌋ ≤ ⌊(tH : ℚ)⌋ :=
        Int.floor_le_floor hle
      rw [Int.floor_intCast] at h1
      omega
    unfold canvasDims
    rw [hres]
    dsimp only
    rw [hq1, canvasDim_intCast tH htH0 htH32, canvasDim_of_nonneg _ hq1nn,
      Int.emod_eq_of_lt hfl0 hfl32]

/-- Witness for `c1_resize_axis_lock`: the landscape source 1920 by 1080
with target width 640 resizes to 640 by 360. -/
theorem c1_resize_axis_lock_witness :
    (0 : ℤ) < 1920 ∧ (0 : ℤ) < 1080 ∧ (1080 : ℤ) < 1920
    ∧ canvasDims 1920 1080 ⟨true, 640, 480, true⟩ = (640, 360) := by
  refine ⟨by norm_num, by norm_num, by norm_num, ?_⟩
  have h := (c1_resize_axis_lock 1920 1080 640 480 (by norm_num) (by norm_num)
    (by norm_num) (by norm_num) (by norm_num) (by norm_num)).1 (by norm_num)
  rw [h]
  have hfl : (⌊((640 : ℤ) : ℚ) * ((1080 : ℤ) : ℚ) / ((1920 : ℤ) : ℚ)⌋ : ℤ) = 360 := by
    rw [Int.floor_eq_iff]
    norm_num
  rw [hfl]

/-- C9 counterexample: the portrait source 2 by 3 with target height 100
gets exact width 200/3, which the canvas truncates to 66 instead of
rounding to the nearest integer 67; and the extreme portrait source 1 by
100 with target height 10 gets exact width 1/10, truncated to 0 — the
output is not clamped to be at least 1. -/
theorem c9_truncation_counterexample :
    canvasDims 2 3 ⟨true, 100, 100, true⟩ = (66, 100)
    ∧ (66 : ℤ) ≠ 67
    ∧ canvasDims 1 100 ⟨true, 10, 10, true⟩ = (0, 10)
    ∧ ¬ (1 ≤ (0 : ℤ)) := by
  refine ⟨?_, by decide, ?_, by decide⟩
  · simp only [canvasDims, resolveDims]
    norm_num
    constructor <;> apply canvasDim_eval <;> norm_num
  · simp only [canvasDims, resolveDims]
    norm_num
    constructor <;> apply canvasDim_eval <;> norm_num

/-- C9 (amended): for positive source dimensions and nonnegative targets
the output dimensions are the floor (truncation toward zero, then
reduction modulo 2^32 by the canvas coercion) of the exactly computed
dimensions — not values rounded to the nearest integer — and they are
always nonnegative, but not clamped to be at least 1. -/
theorem c9_dims_truncated (natW natH : ℤ) (r : ResizeOpts)
    (hw : 0 < natW) (hh : 0 < natH) (hrw : 0 ≤ r.width) (hrh : 0 ≤ r.height) :
    (canvasDims natW natH r).1 = ⌊(resolveDims natW natH r).1⌋ % 4294967296
    ∧ (canvasDims natW natH r).2 = ⌊(resolveDims natW natH r).2⌋ % 4294967296
    ∧ 0 ≤ (canvasDims natW natH r).1
    ∧ 0 ≤ (canvasDims natW natH r).2 := by
  obtain ⟨h1, h2⟩ := resolveDims_nonneg natW natH r hw hh hrw hrh
  exact ⟨canvasDim_of_nonneg _ h1, canvasDim_of_nonneg _ h2,
    canvasDim_nonneg _, canvasDim_nonneg _⟩

/-- Witness for `c9_dims_truncated` at a resize-disabled spec over a
1920 by 1080 source. -/
theorem c9_dims_truncated_witness :
    (0 : ℤ) < 1920 ∧ (0 : ℤ) < 1080
    ∧ 0 ≤ (⟨false, 10, 20, true⟩ : ResizeOpts).width
    ∧ 0 ≤ (⟨false, 10, 20, true⟩ : ResizeOpts).height
    ∧ ((canvasDims 1920 1080 ⟨false, 10, 20, true⟩).1
        = ⌊(resolveDims 1920 1080 ⟨false, 10, 20, true⟩).1⌋ % 4294967296
      ∧ (canvasDims 1920 1080 ⟨false, 10, 20, true⟩).2
        = ⌊(resolveDims 1920 1080 ⟨false, 10, 20, true⟩).2⌋ % 4294967296
      ∧ 0 ≤ (canvasDims 1920 1080 ⟨false, 10, 20, true⟩).1
      ∧ 0 ≤ (canvasDims 1920 1080 ⟨false, 10, 20, true⟩).2) :=
  ⟨by norm_num, by norm_num, by norm_num, by norm_num,
   c9_dims_truncated 1920 1080 ⟨false, 10, 20, true⟩ (by norm_num) (by norm_num)
     (by norm_num) (by norm_num)⟩
